import Mathlib

/-!
Shallow embedding of the WeCafe shift bot core (src/main.py): the
formula-injection guard, schedule splitting, the shift-session table, the
done_log completion ledger, transfer/accept/close transitions, and the
reminder throttle.  Sheet rows become structures, sheet tables become
lists, timestamps become integer minute counts, money becomes exact
rationals, and the store-relevant core of each handler becomes a pure
function.  Outbound chat messages (Notifier calls) are modelled as
returned values where a claim needs them and elided otherwise.
-/

namespace WeCafe

/-- The apostrophe character prepended by the formula-injection guard. -/
def apos : Char := Char.ofNat 39

/-- Leading characters Google Sheets would read as a formula lead-in
(main.py line 137). -/
def dangerousLead (c : Char) : Bool :=
  c == Char.ofNat 61 || c == Char.ofNat 43 || c == Char.ofNat 45 || c == Char.ofNat 64

/-- Python str.strip over the character list of a string. -/
def stripList (s : List Char) : List Char :=
  ((s.dropWhile Char.isWhitespace).reverse.dropWhile Char.isWhitespace).reverse

/-- Core of sanitize_for_sheets (main.py 133-139) on character lists. -/
def sanitizeList (s : List Char) : List Char :=
  match stripList s with
  | [] => []
  | c :: rest => if dangerousLead c then apos :: c :: rest else c :: rest

/-- sanitize_for_sheets (main.py 133-139): strip surrounding whitespace and
prepend an apostrophe when the first remaining character is one of the
formula lead-ins =, +, -, @. -/
def sanitize_for_sheets (s : String) : String :=
  String.mk (sanitizeList s.toList)

/-- Python str.lower restricted to the alphabets this program feeds it:
ASCII A-Z, Cyrillic in the U+0410..U+042F block (lowered by +0x20) and Ё. -/
def lowerChar (c : Char) : Char :=
  if c.toNat ≥ 65 ∧ c.toNat ≤ 90 then Char.ofNat (c.toNat + 32)
  else if c.toNat ≥ 0x410 ∧ c.toNat ≤ 0x42F then Char.ofNat (c.toNat + 0x20)
  else if c.toNat = 0x401 then Char.ofNat 0x451
  else c

/-- Lower-casing over character lists. -/
def lowerList (s : List Char) : List Char := s.map lowerChar

/-- Python substring containment test (pat in s) over character lists. -/
def containsSub (s pat : List Char) : Bool :=
  match s with
  | [] => pat.isEmpty
  | _ :: rest => pat.isPrefixOf s || containsSub rest pat

/-- normalize_point (main.py 337-348): soft normalisation of location names
onto the four canonical points, leaving unknown names stripped. -/
def normalize_point (point : String) : String :=
  let p := String.mk (stripList point.toList)
  let pl := lowerList p.toList
  if containsSub pl "музей".toList then "Музей"
  else if containsSub pl "сочнев".toList then "Сочнева"
  else if containsSub pl "арена".toList then "Арена"
  else if containsSub p.toList "69".toList || containsSub pl "паралл".toList then "69 Параллель"
  else p

/-- Whitespace word split (Python str.split with no argument). -/
def splitWS (s : List Char) : List (List Char) :=
  let step := fun (acc : List (List Char) × List Char) (c : Char) =>
    if c.isWhitespace then
      (if acc.2.isEmpty then acc.1 else acc.1 ++ [acc.2.reverse], ([] : List Char))
    else (acc.1, c :: acc.2)
  let r := s.foldl step ([], [])
  if r.2.isEmpty then r.1 else r.1 ++ [r.2.reverse]

/-- normalize_name (main.py 142-145): strip, collapse inner whitespace,
truncate to 32 characters, then apply the formula guard. -/
def normalize_name (name : String) : String :=
  let collapsed := List.intercalate [Char.ofNat 32] (splitWS (stripList name.toList))
  sanitize_for_sheets (String.mk (collapsed.take 32))

/-- Task row of cleaning_schedule (main.py 496-500). -/
structure Task where
  task_id : String
  task_name : String
  point : String
deriving Repr, DecidableEq

/-- done_log row (main.py DONE_HEADER, line 279): the CompletionRecord.
Timestamps are integer minute counts. -/
structure DoneRecord where
  ts : Int
  day : String
  point : String
  user_id : String
  user_name : String
  task_id : String
  task_name : String
  part : String
  photo1 : String
  photo2 : String
deriving Repr, DecidableEq

/-- shift_sessions row (main.py 620-636, SESSIONS_HEADER).  The stored
split_index string is modelled through int(s or "0") as a Nat, and empty
timestamp cells become none. -/
structure Session where
  session_id : String
  day : String
  point : String
  mode : String
  state : String
  user1_id : String
  user1_name : String
  user1_start : Option Int
  user1_end : Option Int
  user2_id : String
  user2_name : String
  user2_start : Option Int
  user2_end : Option Int
  split_index : Nat
  updated_at : Option Int
deriving Repr, DecidableEq

/-- users row (main.py 354-361). -/
structure UserRec where
  user_id : Int
  name : String
  point : String
  status : String
  created_at : String
  updated_at : String
deriving Repr, DecidableEq

/-- User status constants (main.py 364-366). -/
def STATUS_PENDING : String := "На одобрении"

/-- User status constant for approved workers. -/
def STATUS_ACTIVE : String := "Активен"

/-- User status constant for blocked workers. -/
def STATUS_BLOCKED : String := "Заблокирован"

/-- REMINDER_TEXT (main.py 2250): the single fixed reminder wording used by
reminders_job for every reminder it sends. -/
def REMINDER_TEXT : String :=
  "Дружище, ты же помнишь о задачах? Давай не будем подводить друг друга и закроем план! 🙂"

/-- CLOSE_AVAILABLE_TEXT (main.py 2251): the one-time close-available notice. -/
def CLOSE_AVAILABLE_TEXT : String :=
  "🔒 Кнопка «Закрыть смену» теперь доступна. Нажми её, чтобы закрыть смену."

/-- make_session_id (main.py 639-640). -/
def make_session_id (day point : String) : String :=
  day ++ "|" ++ normalize_point point

/-- get_session (main.py 651-666): the first sessions row whose key column
matches the (day, point) session id. -/
def get_session (sessions : List Session) (day point : String) : Option Session :=
  sessions.find? (fun s => s.session_id == make_session_id day point)

/-- Row update step of upsert_session: replace the first row carrying the
session id, or append when none does. -/
def upsertGo (sid : String) (sess : Session) : List Session → List Session
  | [] => [sess]
  | s :: rest => if s.session_id == sid then sess :: rest else s :: upsertGo sid sess rest

/-- upsert_session (main.py 669-677): stamp updated_at, then update the
first row with the same session key, else append. -/
def upsert_session (sessions : List Session) (sess : Session) (now : Int) : List Session :=
  upsertGo (make_session_id sess.day sess.point) { sess with updated_at := some now } sessions

/-- list_open_sessions (main.py 680-697): rows with a non-empty state other
than CLOSED. -/
def list_open_sessions (sessions : List Session) : List Session :=
  sessions.filter (fun s => !(s.state == "") && !(s.state == "CLOSED"))

/-- user_open_context (main.py 700-714): the open session and role in which
the user currently works on day d. -/
def user_open_context (sessions : List Session) (d : String) (uid : String) :
    Option (Session × String) :=
  (list_open_sessions sessions).findSome? fun s =>
    if !(s.day == d) then none
    else if s.mode == "FULL" && s.state == "OPEN_FULL" && s.user1_id == uid then
      some (s, "FULL")
    else if s.mode == "HALF" && s.state == "OPEN1" && s.user1_id == uid then
      some (s, "HALF1")
    else if s.mode == "HALF" && s.state == "OPEN2" && s.user2_id == uid then
      some (s, "HALF2")
    else none

/-- split_tasks_half (main.py 540-544): stable split into
(part1, part2, split_index) with split_index = (n + 1) / 2. -/
def split_tasks_half (tasks : List Task) : List Task × List Task × Nat :=
  let n := tasks.length
  let split_index := (n + 1) / 2
  (tasks.take split_index, tasks.drop split_index, split_index)

/-- log_done (main.py 550-566): append one done_log row.  The append is
unconditional; no duplicate check happens at insert time. -/
def log_done (log : List DoneRecord) (ts : Int) (day point : String)
    (user_id user_name : String) (t : Task) (part : String)
    (photo1 photo2 : String) : List DoneRecord :=
  log ++ [{ ts := ts, day := day, point := sanitize_for_sheets (normalize_point point),
            user_id := user_id, user_name := sanitize_for_sheets user_name,
            task_id := sanitize_for_sheets t.task_id,
            task_name := sanitize_for_sheets t.task_name,
            part := sanitize_for_sheets part, photo1 := photo1, photo2 := photo2 }]

/-- get_done_task_ids (main.py 569-587): non-empty task ids already
completed for (day, point), globally across workers. -/
def get_done_task_ids (log : List DoneRecord) (day point : String) : List String :=
  (log.filter (fun r =>
    r.day == day && normalize_point r.point == normalize_point point
      && !(r.task_id == ""))).map (fun r => r.task_id)

/-- last_task_action_ts (main.py 590-614): latest done_log timestamp left by
the user for (day, point). -/
def last_task_action_ts (log : List DoneRecord) (day point : String) (uid : String) :
    Option Int :=
  log.foldl (fun acc r =>
    if r.day == day && normalize_point r.point == normalize_point point
        && r.user_id == uid then
      match acc with
      | none => some r.ts
      | some t => if r.ts > t then some r.ts else some t
    else acc) none

/-- Number of done_log rows recorded against one completion key. -/
def count_done_records (log : List DoneRecord) (day point task_id : String) : Nat :=
  (log.filter (fun r =>
    r.day == day && normalize_point r.point == normalize_point point
      && r.task_id == task_id)).length

/-- assigned_tasks_for_user (main.py 1497-1508): zone lookup from the
STORED split_index of the session; the task list parameter is the Schedule
Provider read (load_tasks_for_today) the source performs inside. -/
def assigned_tasks_for_user (sess : Session) (role : String) (tasks : List Task) :
    List Task × String :=
  if role == "FULL" then (tasks, "FULL")
  else if role == "HALF1" then (tasks.take sess.split_index, "HALF1")
  else if role == "HALF2" then (tasks.drop sess.split_index, "HALF2")
  else ([], role)

/-- Duplicate check performed by task_pick_cb (main.py 1597-1601) before the
photo steps; a store read separate from the later insert. -/
def task_pick_duplicate_check (log : List DoneRecord) (day point task_id : String) : Bool :=
  (get_done_task_ids log day point).contains task_id

/-- Failure outcomes of the sequential mark flow. -/
inductive MarkError where
  | notOpen
  | badPick
  | alreadyDone
deriving Repr, DecidableEq

/-- Sequential Mark-Task-Done: the task_pick_cb duplicate check
(main.py 1597-1601) followed, when it passes, by the finalize_task_done
insert (main.py 1635-1651 through log_done).  mark_list and part are the
remaining-task list and part label prepared by mark_cb (main.py 1554-1569). -/
def task_pick_and_finalize (log : List DoneRecord) (sess : Session) (part : String)
    (mark_list : List Task) (idx : Nat) (uid uname : String) (now : Int)
    (photo1 photo2 : String) : Except MarkError (List DoneRecord) :=
  let point := normalize_point sess.point
  match mark_list[idx]? with
  | none => .error .badPick
  | some t =>
    if task_pick_duplicate_check log sess.day point t.task_id then .error .alreadyDone
    else .ok (log_done log now sess.day point uid uname t part photo1 photo2)

/-- Conflict guard of open_cb (main.py 1174-1181) and open_full_start_cb
(main.py 1255-1267): true means a non-closed session already occupies
(day, point) and the create is refused. -/
def open_shift_conflict_check (sessions : List Session) (d point : String) : Bool :=
  match get_session sessions d point with
  | some ex => !(ex.state == "CLOSED")
  | none => false

/-- Session row written by open_cb for HALF mode (main.py 1188-1210). -/
def open_half_session (d point uid uname : String) (tasks : List Task) (now : Int) :
    Session :=
  { session_id := make_session_id d point, day := d, point := point,
    mode := "HALF", state := "OPEN1",
    user1_id := uid, user1_name := uname, user1_start := some now, user1_end := none,
    user2_id := "", user2_name := "", user2_start := none, user2_end := none,
    split_index := (split_tasks_half tasks).2.2, updated_at := some now }

/-- Session row written by open_full_macarons_photo (main.py 1360-1377);
the empty split_index cell reads back as 0. -/
def open_full_session (d point uid uname : String) (now : Int) : Session :=
  { session_id := make_session_id d point, day := d, point := point,
    mode := "FULL", state := "OPEN_FULL",
    user1_id := uid, user1_name := uname, user1_start := some now, user1_end := none,
    user2_id := "", user2_name := "", user2_start := none, user2_end := none,
    split_index := 0, updated_at := some now }

/-- Outcome of a create: the refusing branches return the store untouched.
Updates are processed sequentially (Application built without
concurrent_updates, main.py 2635; webhook and polling feed the one update
queue, 2771/2805) and all sheets calls are blocking, so each create runs
its guards and its write as one atomic block. -/
inductive CreateResult where
  | ok (sessions : List Session)
  | conflict (sessions : List Session)
  | alreadyOpen (sessions : List Session)
deriving Repr, DecidableEq

/-- HALF branch of open_cb (main.py 1160-1210): the caller-already-open
guard, the (day, point) conflict check and the session write run in one
synchronous block with no suspension point between check and write. -/
def open_half_cb (sessions : List Session) (d point uid uname : String)
    (tasks : List Task) (now : Int) : CreateResult :=
  if (user_open_context sessions d uid).isSome then .alreadyOpen sessions
  else if open_shift_conflict_check sessions d point then .conflict sessions
  else .ok (upsert_session sessions (open_half_session d point uid uname tasks now) now)

/-- Finalisation of the FULL open flow (open_full_macarons_photo,
main.py 1343-1377): the conflict guard is re-read immediately before the
write, again with no suspension point between them; the start-time guards
of open_full_start_cb (1249-1267) only add earlier refusals. -/
def open_full_finalize (sessions : List Session) (d point uid uname : String)
    (now : Int) : CreateResult :=
  if open_shift_conflict_check sessions d point then .conflict sessions
  else .ok (upsert_session sessions (open_full_session d point uid uname now) now)

/-- Session mutation of pick_user2_cb (main.py 1908-1912); updated_at is
stamped by upsert_session. -/
def transfer_session_update (sess : Session) (u2_id u2_name : String) (now : Int) :
    Session :=
  { sess with state := "WAIT_ACCEPT", user1_end := some now,
              user2_id := u2_id, user2_name := u2_name }

/-- Session mutation of accept_shift_cb (main.py 1981-1984). -/
def accept_session_update (sess : Session) (now : Int) : Session :=
  { sess with state := "OPEN2", user2_start := some now }

/-- Session mutation at close (main.py 2178-2189). -/
def close_session_update (sess : Session) (mode role : String) (now : Int) : Session :=
  let s1 := { sess with state := "CLOSED" }
  if mode == "FULL" then { s1 with user1_end := some now }
  else if mode == "HALF" then
    (if role == "HALF1" then { s1 with user1_end := some now }
     else { s1 with user2_end := some now })
  else s1

/-- Outcome of pick_user2_cb relevant to the store and oversight. -/
structure TransferResult where
  sessions : List Session
  violation_to_control : Bool
  missing : List String
deriving Repr, DecidableEq

/-- pick_user2_cb (main.py 1859-1942): role and candidate guards, the
first-half missing check whose non-empty result is reported to the control
group as a MissedWorkViolation without blocking, then the WAIT_ACCEPT
transition.  u2 is the users-table read get_user(uid2). -/
def pick_user2_cb (sessions : List Session) (d uid : String) (u2 : Option UserRec)
    (tasks_all : List Task) (log : List DoneRecord) (now : Int) :
    Option TransferResult :=
  match user_open_context sessions d uid with
  | none => none
  | some (sess, role) =>
    if role == "HALF1" then
      match u2 with
      | none => none
      | some u2r =>
        if u2r.status == STATUS_ACTIVE then
          let point := normalize_point sess.point
          let my_tasks := tasks_all.take sess.split_index
          let done_ids := get_done_task_ids log sess.day point
          let missing := (my_tasks.filter (fun t => !(done_ids.contains t.task_id))).map
            (fun t => t.task_name)
          some { sessions := upsert_session sessions
                   (transfer_session_update sess (toString u2r.user_id) u2r.name now) now,
                 violation_to_control := !missing.isEmpty,
                 missing := missing }
        else none
    else none

/-- Close conversation context (main.py 2026-2041), money as exact
rationals. -/
structure CloseCtx where
  session_id : String
  day : String
  point : String
  mode : String
  role : String
  user_id : String
  user_name : String
  cash_in : ℚ
  sales_cashless : ℚ
  sales_cash : ℚ
  refunds : ℚ
  receipt1 : String
  receipt2 : String
  cleanup : List String
deriving Repr, DecidableEq

/-- close_log row (main.py CLOSE_HEADER, 292-300). -/
structure CloseRecord where
  ts : Int
  day : String
  point : String
  session_id : String
  mode : String
  user_id : String
  user_name : String
  cash_in : ℚ
  sales_cashless : ℚ
  sales_cash : ℚ
  refunds : ℚ
  total_sales : ℚ
  cash_in_box : ℚ
  receipt1 : String
  receipt2 : String
  cleanup1 : String
  cleanup2 : String
  cleanup3 : String
  cleanup4 : String
  note : String
deriving Repr, DecidableEq

/-- close_log row built by close_cleanup (main.py 2145-2175), with
total_sales = sales_cash + sales_cashless and
cash_in_box = cash_in + sales_cash. -/
def close_row (ctx : CloseCtx) (missing : List String) (now : Int) : CloseRecord :=
  { ts := now, day := ctx.day, point := ctx.point, session_id := ctx.session_id,
    mode := ctx.mode, user_id := ctx.user_id,
    user_name := sanitize_for_sheets ctx.user_name,
    cash_in := ctx.cash_in, sales_cashless := ctx.sales_cashless,
    sales_cash := ctx.sales_cash, refunds := ctx.refunds,
    total_sales := ctx.sales_cash + ctx.sales_cashless,
    cash_in_box := ctx.cash_in + ctx.sales_cash,
    receipt1 := ctx.receipt1, receipt2 := ctx.receipt2,
    cleanup1 := ctx.cleanup.getD 0 "", cleanup2 := ctx.cleanup.getD 1 "",
    cleanup3 := ctx.cleanup.getD 2 "", cleanup4 := ctx.cleanup.getD 3 "",
    note := if missing.isEmpty then "" else "MISSING_TASKS" }

/-- Store outcome of the close finalisation. -/
structure CloseResult where
  sessions : List Session
  close_log : List CloseRecord
  missing : List String
deriving Repr, DecidableEq

/-- Finalisation step of close_cleanup on the fourth photo
(main.py 2139-2189): missing computed over the FULL day task list of the
point, exactly one close_log append, session set CLOSED.  User messages and
control reports are Notifier side effects, elided. -/
def close_finalize (sessions : List Session) (close_log : List CloseRecord)
    (tasks_all : List Task) (log : List DoneRecord) (ctx : CloseCtx) (now : Int) :
    CloseResult :=
  let done_ids := get_done_task_ids log ctx.day ctx.point
  let missing := (tasks_all.filter (fun t => !(done_ids.contains t.task_id))).map
    (fun t => t.task_name)
  let close_log2 := close_log ++ [close_row ctx missing now]
  let sessions2 :=
    match get_session sessions ctx.day ctx.point with
    | some sess =>
      if sess.session_id == ctx.session_id then
        upsert_session sessions (close_session_update sess ctx.mode ctx.role now) now
      else sessions
    | none => sessions
  { sessions := sessions2, close_log := close_log2, missing := missing }

/-- bot_data throttle flags: flag key to last-sent minute. -/
abbrev Flags := List (String × Int)

/-- Lookup of a bot_data flag. -/
def flag_lookup (flags : Flags) (k : String) : Option Int :=
  (flags.find? (fun e => e.1 == k)).map (fun e => e.2)

/-- Assignment of a bot_data flag. -/
def flag_set (flags : Flags) (k : String) (v : Int) : Flags :=
  (k, v) :: flags.filter (fun e => !(e.1 == k))

/-- Reminder throttle key (main.py 1648 and 2345). -/
def reminder_flag_key (d point uid : String) : String :=
  "reminder_sent:" ++ d ++ ":" ++ point ++ ":" ++ uid

/-- Throttle refresh done by finalize_task_done on completion
(main.py 1646-1651). -/
def completion_flag_reset (flags : Flags) (d point uid : String) (now : Int) : Flags :=
  flag_set flags (reminder_flag_key d (normalize_point point) uid) now

/-- Responsible targets of a session in reminders_job (main.py 2302-2311). -/
def reminder_targets (s : Session) : List (String × String) :=
  if s.mode == "FULL" && s.state == "OPEN_FULL" && !(s.user1_id == "") then
    [(s.user1_id, "FULL")]
  else if s.mode == "HALF" && s.state == "OPEN1" && !(s.user1_id == "") then
    [(s.user1_id, "HALF1")]
  else if s.mode == "HALF" && s.state == "OPEN2" && !(s.user2_id == "") then
    [(s.user2_id, "HALF2")]
  else []

/-- Role-based task slice of reminders_job (main.py 2319-2324), again from
the STORED split_index. -/
def reminder_role_tasks (s : Session) (role : String) (tasks_all : List Task) :
    List Task :=
  if role == "FULL" then tasks_all
  else if role == "HALF1" then tasks_all.take s.split_index
  else tasks_all.drop s.split_index

/-- Send guard of the per-target reminder decision in reminders_job
(main.py 2318-2354).  The early-continue chain of the source is rendered as
one conjunction: remaining tasks non-empty, the idle threshold reached
since the last done_log action (or since the shift start when none
exists), and the throttle flag absent or older than the idle window. -/
def reminder_should_send (s : Session) (d uid role : String) (tasks_all : List Task)
    (done_ids : List String) (log : List DoneRecord) (flags : Flags)
    (now idle : Int) : Bool :=
  let point := normalize_point s.point
  let tasks := reminder_role_tasks s role tasks_all
  let remaining := tasks.filter (fun t => !(done_ids.contains t.task_id))
  let idleOk :=
    match last_task_action_ts log d point uid with
    | none =>
      let start := (if role == "FULL" || role == "HALF1" then s.user1_start
                    else s.user2_start).getD now
      !(decide (now - start < idle))
    | some lt => !(decide (now - lt < idle))
  let blocked :=
    match flag_lookup flags (reminder_flag_key d point uid) with
    | some last => decide (now - last < idle)
    | none => false
  !remaining.isEmpty && idleOk && !blocked

/-- Per-target reminder decision of reminders_job (main.py 2318-2359): when
the guard passes the throttle flag is set to now and the one fixed
REMINDER_TEXT goes out; otherwise nothing is sent and nothing changes. -/
def reminder_target_step (s : Session) (d uid role : String) (tasks_all : List Task)
    (done_ids : List String) (log : List DoneRecord) (flags : Flags)
    (now idle : Int) : Option String × Flags :=
  if reminder_should_send s d uid role tasks_all done_ids log flags now idle then
    (some REMINDER_TEXT,
     flag_set flags (reminder_flag_key d (normalize_point s.point) uid) now)
  else (none, flags)

/-- Per-session reminder pass of reminders_job (main.py 2294-2359): day
guard, the work-hours clock gate passed in as a Bool, the schedule read,
then the per-target step.  Returns sent (uid, text) pairs and new flags. -/
def reminders_session_tick (s : Session) (d : String) (inWork : Bool)
    (tasks_all : List Task) (log : List DoneRecord) (flags : Flags)
    (now idle : Int) : List (String × String) × Flags :=
  if !(s.day == d) then ([], flags)
  else if !inWork then ([], flags)
  else if tasks_all.isEmpty then ([], flags)
  else
    let done_ids := get_done_task_ids log d (normalize_point s.point)
    (reminder_targets s).foldl
      (fun (acc : List (String × String) × Flags) (tr : String × String) =>
        let r := reminder_target_step s d tr.1 tr.2 tasks_all done_ids log acc.2 now idle
        (match r.1 with
         | some m => acc.1 ++ [(tr.1, m)]
         | none => acc.1, r.2))
      ([], flags)

/-- The done_log read distributes over appended rows. -/
theorem get_done_task_ids_append (l1 l2 : List DoneRecord) (d p : String) :
    get_done_task_ids (l1 ++ l2) d p
      = get_done_task_ids l1 d p ++ get_done_task_ids l2 d p := by
  simp [get_done_task_ids, List.filter_append]

/-- Finding by the session key after an upsert yields the upserted row. -/
theorem find_upsertGo (v : Session) (sid : String) (h2 : v.session_id = sid)
    (l : List Session) :
    (upsertGo sid v l).find? (fun s => s.session_id == sid) = some v := by
  induction l with
  | nil => simp [upsertGo, h2]
  | cons s rest ih =>
    by_cases hs : (s.session_id == sid) = true
    · simp [upsertGo, hs, List.find?_cons, h2]
    · rw [Bool.not_eq_true] at hs
      simp [upsertGo, hs, List.find?_cons, ih]

/-- get_session after upsert_session returns the stamped upserted row. -/
theorem get_session_upsert (sessions : List Session) (v : Session) (now : Int)
    (d p : String)
    (h1 : make_session_id v.day v.point = make_session_id d p)
    (h2 : v.session_id = make_session_id d p) :
    get_session (upsert_session sessions v now) d p
      = some { v with updated_at := some now } := by
  unfold get_session upsert_session
  rw [h1]
  exact find_upsertGo { v with updated_at := some now } (make_session_id d p) h2 sessions

/-- Looking up a flag right after setting it returns the set value. -/
theorem flag_lookup_set (flags : Flags) (k : String) (v : Int) :
    flag_lookup (flag_set flags k v) k = some v := by
  simp [flag_lookup, flag_set, List.find?_cons]

/-- Field behaviour of the close transition: day, point, key and
split_index are preserved and the state becomes CLOSED. -/
theorem close_session_update_fields (sess : Session) (mode role : String) (now : Int) :
    (close_session_update sess mode role now).day = sess.day
  ∧ (close_session_update sess mode role now).point = sess.point
  ∧ (close_session_update sess mode role now).session_id = sess.session_id
  ∧ (close_session_update sess mode role now).state = "CLOSED"
  ∧ (close_session_update sess mode role now).split_index = sess.split_index := by
  unfold close_session_update
  split
  · exact ⟨rfl, rfl, rfl, rfl, rfl⟩
  · split
    · split
      · exact ⟨rfl, rfl, rfl, rfl, rfl⟩
      · exact ⟨rfl, rfl, rfl, rfl, rfl⟩
    · exact ⟨rfl, rfl, rfl, rfl, rfl⟩

/-- Concrete task used by the evaluation witnesses. -/
def demoTask : Task := { task_id := "t1", task_name := "Wash", point := "P1" }

/-- Concrete task whose id begins with a formula lead-in character. -/
def formulaTask : Task := { task_id := "=x", task_name := "Evil", point := "P1" }

/-- Concrete active second worker used by the evaluation witnesses. -/
def demoUser : UserRec :=
  { user_id := 8, name := "B", point := "P1", status := STATUS_ACTIVE,
    created_at := "", updated_at := "" }

/-- Concrete first-half open session used by the evaluation witnesses. -/
def demoSession1 : Session :=
  { session_id := "2026-10-12|P1", day := "2026-10-12", point := "P1",
    mode := "HALF", state := "OPEN1",
    user1_id := "7", user1_name := "A", user1_start := some 0, user1_end := none,
    user2_id := "", user2_name := "", user2_start := none, user2_end := none,
    split_index := 1, updated_at := some 0 }

/-- Concrete second-half open session used by the evaluation witnesses. -/
def demoSession2 : Session :=
  { session_id := "2026-10-12|P1", day := "2026-10-12", point := "P1",
    mode := "HALF", state := "OPEN2",
    user1_id := "7", user1_name := "A", user1_start := some 0, user1_end := some 20,
    user2_id := "8", user2_name := "B", user2_start := some 20, user2_end := none,
    split_index := 1, updated_at := some 20 }

/-- Concrete close context used by the evaluation witnesses. -/
def demoCloseCtx : CloseCtx :=
  { session_id := "2026-10-12|P1", day := "2026-10-12", point := "P1",
    mode := "HALF", role := "HALF2", user_id := "8", user_name := "B",
    cash_in := 1000, sales_cashless := 300, sales_cash := 500, refunds := 0,
    receipt1 := "r1", receipt2 := "r2", cleanup := ["c1", "c2", "c3", "c4"] }

/-- C1: the duplicate check of Mark-Task-Done (task_pick_cb) and the record
insert (finalize_task_done through log_done) are two separate store
operations, not one atomic check-and-insert: in the interleaving where both
flows run their checks before either insert (for example worker1 picks t1,
the shift is transferred and accepted, worker2 picks and finalizes t1, and
then the pending photo flow of worker1 finalizes t1 again), both checks
pass on the same store snapshot and the unconditional appends leave TWO
CompletionRecords for one (day, location, task), which the claim rules
out. -/
theorem mark_done_check_insert_not_atomic :
    task_pick_duplicate_check [] "2026-10-12" "P1" "t1" = false
  ∧ count_done_records
      (log_done (log_done [] 100 "2026-10-12" "P1" "7" "A"
          { task_id := "t1", task_name := "Wash", point := "P1" } "HALF1" "p1" "")
        101 "2026-10-12" "P1" "8" "B"
        { task_id := "t1", task_name := "Wash", point := "P1" } "HALF2" "p2" "")
      "2026-10-12" "P1" "t1" = 2 := by
  exact ⟨by decide, by decide⟩

/-- C3: a create against a (day, point) key already holding a non-closed
session is refused with the conflict error and writes nothing, for both
Create-Half and Create-Full; and since updates are serialized and each
create runs its conflict check and its write as one atomic block, of two
racing creates from a free key the first succeeds and the second is
refused with the conflict error and no write, leaving the key holding
exactly the single OPEN session of the first creator. -/
theorem create_conflict_and_serialized_race
    (sessions S0 : List Session) (d point uid1 un1 uid2 un2 : String)
    (tasks : List Task) (n1 n2 : Int) (ex : Session)
    (h0 : user_open_context sessions d uid2 = none)
    (hex : get_session sessions d point = some ex)
    (hopen : ¬(ex.state = "CLOSED"))
    (h1 : user_open_context S0 d uid1 = none)
    (h2 : open_shift_conflict_check S0 d point = false)
    (h3 : user_open_context
        (upsert_session S0 (open_half_session d point uid1 un1 tasks n1) n1) d uid2
      = none) :
    open_half_cb sessions d point uid2 un2 tasks n2 = .conflict sessions
  ∧ open_full_finalize sessions d point uid2 un2 n2 = .conflict sessions
  ∧ open_half_cb S0 d point uid1 un1 tasks n1
      = .ok (upsert_session S0 (open_half_session d point uid1 un1 tasks n1) n1)
  ∧ open_half_cb (upsert_session S0 (open_half_session d point uid1 un1 tasks n1) n1)
      d point uid2 un2 tasks n2
      = .conflict (upsert_session S0 (open_half_session d point uid1 un1 tasks n1) n1)
  ∧ open_full_finalize
      (upsert_session S0 (open_half_session d point uid1 un1 tasks n1) n1)
      d point uid2 un2 n2
      = .conflict (upsert_session S0 (open_half_session d point uid1 un1 tasks n1) n1)
  ∧ get_session (upsert_session S0 (open_half_session d point uid1 un1 tasks n1) n1)
      d point
      = some { open_half_session d point uid1 un1 tasks n1 with
               updated_at := some n1 } := by
  have hcc : open_shift_conflict_check sessions d point = true := by
    simp [open_shift_conflict_check, hex, hopen]
  have hg : get_session (upsert_session S0 (open_half_session d point uid1 un1 tasks n1) n1)
      d point
      = some { open_half_session d point uid1 un1 tasks n1 with
               updated_at := some n1 } :=
    get_session_upsert S0 (open_half_session d point uid1 un1 tasks n1) n1 d point rfl rfl
  have hcc2 : open_shift_conflict_check
      (upsert_session S0 (open_half_session d point uid1 un1 tasks n1) n1) d point
      = true := by
    have hst : (open_half_session d point uid1 un1 tasks n1).state = "OPEN1" := rfl
    simp [open_shift_conflict_check, hg, hst]
  refine ⟨?_, ?_, ?_, ?_, ?_, hg⟩
  · simp [open_half_cb, h0, hcc]
  · simp [open_full_finalize, hcc]
  · simp [open_half_cb, h1, h2]
  · simp [open_half_cb, h3, hcc2]
  · simp [open_full_finalize, hcc2]

/-- C3 evaluation witness: a conflict against a concrete open session, and
a concrete serialized race from the empty store in which the first create
succeeds and the second is refused. -/
theorem create_conflict_and_serialized_race_witness :
    open_half_cb [demoSession1] "2026-10-12" "P1" "8" "B" [demoTask] 11
      = .conflict [demoSession1]
  ∧ open_full_finalize [demoSession1] "2026-10-12" "P1" "8" "B" 11
      = .conflict [demoSession1]
  ∧ open_half_cb [] "2026-10-12" "P1" "7" "A" [demoTask] 10
      = .ok (upsert_session [] (open_half_session "2026-10-12" "P1" "7" "A" [demoTask] 10) 10)
  ∧ open_half_cb (upsert_session [] (open_half_session "2026-10-12" "P1" "7" "A" [demoTask] 10) 10)
      "2026-10-12" "P1" "8" "B" [demoTask] 11
      = .conflict (upsert_session [] (open_half_session "2026-10-12" "P1" "7" "A" [demoTask] 10) 10)
  ∧ open_full_finalize
      (upsert_session [] (open_half_session "2026-10-12" "P1" "7" "A" [demoTask] 10) 10)
      "2026-10-12" "P1" "8" "B" 11
      = .conflict (upsert_session [] (open_half_session "2026-10-12" "P1" "7" "A" [demoTask] 10) 10)
  ∧ get_session (upsert_session [] (open_half_session "2026-10-12" "P1" "7" "A" [demoTask] 10) 10)
      "2026-10-12" "P1"
      = some { open_half_session "2026-10-12" "P1" "7" "A" [demoTask] 10 with
               updated_at := some 10 } :=
  create_conflict_and_serialized_race [demoSession1] [] "2026-10-12" "P1" "7" "A" "8" "B"
    [demoTask] 10 11 demoSession1 (by decide) (by decide) (by decide) (by decide)
    (by decide) (by decide)

/-- C4: Create-Half splits the schedule at split_index = ceil(n / 2):
the stored index equals (n + 1) / 2 = n - n / 2, worker1 gets exactly the
tasks at positions [0, split_index) in provider order, worker2 the
remainder, and the two zones partition the list. -/
theorem create_half_split_is_ceil (tasks : List Task) (d point uid uname : String)
    (now : Int) :
    (split_tasks_half tasks).2.2 = (tasks.length + 1) / 2
  ∧ (split_tasks_half tasks).2.2 = tasks.length - tasks.length / 2
  ∧ (split_tasks_half tasks).1 = tasks.take ((tasks.length + 1) / 2)
  ∧ (split_tasks_half tasks).2.1 = tasks.drop ((tasks.length + 1) / 2)
  ∧ (split_tasks_half tasks).1 ++ (split_tasks_half tasks).2.1 = tasks
  ∧ (split_tasks_half tasks).1.length = (tasks.length + 1) / 2
  ∧ (open_half_session d point uid uname tasks now).split_index
      = (tasks.length + 1) / 2
  ∧ (assigned_tasks_for_user (open_half_session d point uid uname tasks now)
      "HALF1" tasks).1 = tasks.take ((tasks.length + 1) / 2)
  ∧ (assigned_tasks_for_user (open_half_session d point uid uname tasks now)
      "HALF2" tasks).1 = tasks.drop ((tasks.length + 1) / 2) := by
  refine ⟨rfl, by simp only [split_tasks_half]; omega, rfl, rfl,
    List.take_append_drop _ _, ?_, rfl, ?_, ?_⟩
  · simp only [split_tasks_half, List.length_take]
    omega
  · simp [assigned_tasks_for_user, open_half_session, split_tasks_half]
  · simp [assigned_tasks_for_user, open_half_session, split_tasks_half]

/-- C5: once set at creation, split_index is preserved by every later
session mutation (transfer, accept, close), and every zone lookup
(assigned_tasks_for_user and the reminder slice) uses the STORED
split_index as the boundary for whatever task list the Schedule Provider
currently returns, of any length. -/
theorem split_index_immutable (sess : Session) (u2_id u2_name mode role : String)
    (now : Int) (t1 t2 : List Task) :
    (transfer_session_update sess u2_id u2_name now).split_index = sess.split_index
  ∧ (accept_session_update sess now).split_index = sess.split_index
  ∧ (close_session_update sess mode role now).split_index = sess.split_index
  ∧ (assigned_tasks_for_user sess "HALF1" t1).1 = t1.take sess.split_index
  ∧ (assigned_tasks_for_user sess "HALF2" t1).1 = t1.drop sess.split_index
  ∧ reminder_role_tasks sess "HALF1" t2 = t2.take sess.split_index
  ∧ reminder_role_tasks sess "HALF2" t2 = t2.drop sess.split_index := by
  refine ⟨rfl, rfl, (close_session_update_fields sess mode role now).2.2.2.2,
    ?_, ?_, ?_, ?_⟩
  · simp [assigned_tasks_for_user]
  · simp [assigned_tasks_for_user]
  · simp [reminder_role_tasks]
  · simp [reminder_role_tasks]

/-- C8 counterexample: in a run with remaining tasks and two reminders sent
(the second tick one idle window after the first), the first and the second
reminder carry the same fixed wording REMINDER_TEXT; there is no
escalation-worded first variant distinct from a softer later variant. -/
theorem first_reminder_same_text_as_later :
    (reminder_target_step demoSession1 "2026-10-12" "7" "HALF1" [demoTask]
        [] [] [] 60 60).1 = some REMINDER_TEXT
  ∧ (reminder_target_step demoSession1 "2026-10-12" "7" "HALF1" [demoTask]
        [] []
        ((reminder_target_step demoSession1 "2026-10-12" "7" "HALF1" [demoTask]
          [] [] [] 60 60).2) 120 60).1 = some REMINDER_TEXT := by
  exact ⟨by decide, by decide⟩

/-- C8 amended: every reminder the job ever sends, first or later, is the
one fixed REMINDER_TEXT; the wording never changes while remaining tasks
stay non-empty. -/
theorem reminder_text_single_variant (s : Session) (d uid role : String)
    (tasks_all : List Task) (done_ids : List String) (log : List DoneRecord)
    (flags : Flags) (now idle : Int) :
    ((reminder_target_step s d uid role tasks_all done_ids log flags now idle).1.all
      (fun m => m == REMINDER_TEXT)) = true := by
  unfold reminder_target_step
  split
  · simp [Option.all]
  · rfl

/-- C10: sanitize_for_sheets strips surrounding whitespace; when the first
remaining character is one of = + - @ it prepends an apostrophe and
otherwise returns the stripped text unchanged, so its output never begins
with a formula lead-in character. -/
theorem sanitize_for_sheets_no_formula_lead (s : String) :
    ((sanitize_for_sheets s).toList.head?.all fun c => !(dangerousLead c)) = true
  ∧ (sanitize_for_sheets s).toList =
      (if (stripList s.toList).head?.any dangerousLead then
        apos :: stripList s.toList
      else stripList s.toList) := by
  show ((sanitizeList s.data).head?.all fun c => !(dangerousLead c)) = true
    ∧ sanitizeList s.data =
        (if (stripList s.data).head?.any dangerousLead then apos :: stripList s.data
         else stripList s.data)
  unfold sanitizeList
  cases h : stripList s.data with
  | nil => simp [h]
  | cons c rest =>
    cases hd : dangerousLead c with
    | true =>
      constructor
      · simp only [h, hd, if_true, List.head?_cons, Option.all_some]
        decide
      · simp [h, hd]
    | false =>
      constructor
      · simp [h, hd]
      · simp [h, hd]

/-- C2 counterexample: for a task whose id begins with a formula lead-in,
log_done stores the apostrophe-prefixed id while task_pick_cb compares the
raw schedule id against the stored set, so the second sequential mark does
not fail with AlreadyDoneError: it appends again, leaving two done_log
rows for the one (day, location, task), against the claim as stated for
every zone task. -/
theorem mark_twice_formula_id_not_idempotent :
    (task_pick_and_finalize [] demoSession1 "HALF1" [formulaTask] 0 "7" "A" 5
        "p" "").toOption
      = some (log_done [] 5 "2026-10-12" "P1" "7" "A" formulaTask "HALF1" "p" "")
  ∧ (task_pick_and_finalize
      (log_done [] 5 "2026-10-12" "P1" "7" "A" formulaTask "HALF1" "p" "")
      demoSession1 "HALF1" [formulaTask] 0 "7" "A" 9 "p" "").toOption
      = some (log_done (log_done [] 5 "2026-10-12" "P1" "7" "A" formulaTask "HALF1" "p" "")
          9 "2026-10-12" "P1" "7" "A" formulaTask "HALF1" "p" "")
  ∧ count_done_records
      (log_done (log_done [] 5 "2026-10-12" "P1" "7" "A" formulaTask "HALF1" "p" "")
        9 "2026-10-12" "P1" "7" "A" formulaTask "HALF1" "p" "")
      "2026-10-12" "P1" (sanitize_for_sheets formulaTask.task_id) = 2 := by
  exact ⟨by decide, by decide, by decide⟩

/-- C2 amended: with an open session and a zone task not yet completed, the
sequential mark flow succeeds the first time, appending exactly one
done_log row for the completion key, and the identical second attempt
fails on the duplicate check (AlreadyDoneError) leaving the store
unchanged, so exactly one CompletionRecord is persisted for
(day, location, task).  The roundtrip hypotheses state that the task id
and the normalised point survive the sheet sanitiser, which holds for
every real task id and point name. -/
theorem mark_twice_first_ok_then_already_done
    (log : List DoneRecord) (sess : Session) (part : String)
    (mark_list : List Task) (idx : Nat) (t : Task)
    (uid uname photo1 photo2 : String) (n1 n2 : Int)
    (hpick : mark_list[idx]? = some t)
    (hid : sanitize_for_sheets t.task_id = t.task_id)
    (hne : ¬(t.task_id = ""))
    (hround : normalize_point (sanitize_for_sheets (normalize_point sess.point))
        = normalize_point sess.point)
    (hidem : normalize_point (normalize_point sess.point) = normalize_point sess.point)
    (hnew : task_pick_duplicate_check log sess.day (normalize_point sess.point)
        t.task_id = false)
    (hcount : count_done_records log sess.day (normalize_point sess.point)
        t.task_id = 0) :
    task_pick_and_finalize log sess part mark_list idx uid uname n1 photo1 photo2
      = .ok (log_done log n1 sess.day (normalize_point sess.point) uid uname t part
          photo1 photo2)
  ∧ task_pick_and_finalize
      (log_done log n1 sess.day (normalize_point sess.point) uid uname t part
        photo1 photo2)
      sess part mark_list idx uid uname n2 photo1 photo2 = .error .alreadyDone
  ∧ count_done_records
      (log_done log n1 sess.day (normalize_point sess.point) uid uname t part
        photo1 photo2)
      sess.day (normalize_point sess.point) t.task_id = 1 := by
  have hdup : task_pick_duplicate_check
      (log_done log n1 sess.day (normalize_point sess.point) uid uname t part
        photo1 photo2)
      sess.day (normalize_point sess.point) t.task_id = true := by
    unfold task_pick_duplicate_check log_done
    rw [get_done_task_ids_append]
    simp [get_done_task_ids, hid, hidem, hround, hne]
  refine ⟨by simp [task_pick_and_finalize, hpick, hnew], ?_, ?_⟩
  · simp [task_pick_and_finalize, hpick, hdup]
  · unfold count_done_records at hcount ⊢
    unfold log_done
    rw [List.filter_append, List.length_append, hcount]
    simp [hid, hidem, hround]

/-- C2 evaluation witness at a concrete open half session and task. -/
theorem mark_twice_first_ok_then_already_done_witness :
    task_pick_and_finalize [] demoSession1 "HALF1" [demoTask] 0 "7" "A" 5 "p" ""
      = .ok (log_done [] 5 demoSession1.day (normalize_point demoSession1.point)
          "7" "A" demoTask "HALF1" "p" "")
  ∧ task_pick_and_finalize
      (log_done [] 5 demoSession1.day (normalize_point demoSession1.point)
        "7" "A" demoTask "HALF1" "p" "")
      demoSession1 "HALF1" [demoTask] 0 "7" "A" 9 "p" "" = .error .alreadyDone
  ∧ count_done_records
      (log_done [] 5 demoSession1.day (normalize_point demoSession1.point)
        "7" "A" demoTask "HALF1" "p" "")
      demoSession1.day (normalize_point demoSession1.point) demoTask.task_id = 1 :=
  mark_twice_first_ok_then_already_done [] demoSession1 "HALF1" [demoTask] 0 demoTask
    "7" "A" "p" "" 5 9 (by decide) (by decide) (by decide) (by decide) (by decide)
    (by decide) (by decide)

/-- C6: reaching the final evidence item always finalises the close-out:
exactly one close_log row is appended (whether or not missing is empty),
the session state becomes CLOSED with its split_index untouched, and
missing is exactly the full-day task list filtered to tasks with no
CompletionRecord for (day, location). -/
theorem close_out_always_succeeds
    (sessions : List Session) (close_log : List CloseRecord) (tasks_all : List Task)
    (log : List DoneRecord) (ctx : CloseCtx) (now : Int) (sess : Session)
    (hget : get_session sessions ctx.day ctx.point = some sess)
    (hsid : sess.session_id = ctx.session_id)
    (hday : sess.day = ctx.day)
    (hpoint : sess.point = ctx.point) :
    (close_finalize sessions close_log tasks_all log ctx now).close_log
      = close_log ++ [close_row ctx
          (close_finalize sessions close_log tasks_all log ctx now).missing now]
  ∧ (close_finalize sessions close_log tasks_all log ctx now).missing
      = (tasks_all.filter (fun t =>
          !((get_done_task_ids log ctx.day ctx.point).contains t.task_id))).map
          (fun t => t.task_name)
  ∧ ((get_session (close_finalize sessions close_log tasks_all log ctx now).sessions
        ctx.day ctx.point).map Session.state) = some "CLOSED"
  ∧ ((get_session (close_finalize sessions close_log tasks_all log ctx now).sessions
        ctx.day ctx.point).map Session.split_index) = some sess.split_index := by
  have hkey : sess.session_id = make_session_id ctx.day ctx.point := by
    have hp := List.find?_some hget
    simpa using hp
  have hfields := close_session_update_fields sess ctx.mode ctx.role now
  have hsess2 : (close_finalize sessions close_log tasks_all log ctx now).sessions
      = upsert_session sessions (close_session_update sess ctx.mode ctx.role now) now := by
    unfold close_finalize
    rw [hget]
    simp [hsid]
  have hup : get_session
      (upsert_session sessions (close_session_update sess ctx.mode ctx.role now) now)
      ctx.day ctx.point
      = some { close_session_update sess ctx.mode ctx.role now with
               updated_at := some now } := by
    apply get_session_upsert
    · rw [hfields.1, hfields.2.1, hday, hpoint]
    · rw [hfields.2.2.1, hkey]
  refine ⟨rfl, rfl, ?_, ?_⟩
  · rw [hsess2, hup]
    exact congrArg some hfields.2.2.2.1
  · rw [hsess2, hup]
    exact congrArg some hfields.2.2.2.2

/-- C6 evaluation witness at a concrete second-half session with one task
still missing. -/
theorem close_out_always_succeeds_witness :
    (close_finalize [demoSession2] [] [demoTask] [] demoCloseCtx 40).close_log
      = [] ++ [close_row demoCloseCtx
          (close_finalize [demoSession2] [] [demoTask] [] demoCloseCtx 40).missing 40]
  ∧ (close_finalize [demoSession2] [] [demoTask] [] demoCloseCtx 40).missing
      = ([demoTask].filter (fun t =>
          !((get_done_task_ids [] demoCloseCtx.day demoCloseCtx.point).contains
            t.task_id))).map (fun t => t.task_name)
  ∧ ((get_session (close_finalize [demoSession2] [] [demoTask] [] demoCloseCtx 40).sessions
        demoCloseCtx.day demoCloseCtx.point).map Session.state) = some "CLOSED"
  ∧ ((get_session (close_finalize [demoSession2] [] [demoTask] [] demoCloseCtx 40).sessions
        demoCloseCtx.day demoCloseCtx.point).map Session.split_index)
      = some demoSession2.split_index :=
  close_out_always_succeeds [demoSession2] [] [demoTask] [] demoCloseCtx 40 demoSession2
    (by decide) (by decide) (by decide) (by decide)

/-- C7: from OPEN1 with an active candidate and a non-empty first-half
missing set, Request-Transfer reports the violation to oversight AND still
performs the transfer: the stored session moves to WAIT_ACCEPT with
worker2 set to the candidate. -/
theorem transfer_with_missing_not_blocked
    (sessions : List Session) (d uid : String) (u2r : UserRec)
    (tasks_all : List Task) (log : List DoneRecord) (now : Int) (sess : Session)
    (hctx : user_open_context sessions d uid = some (sess, "HALF1"))
    (hact : u2r.status = STATUS_ACTIVE)
    (hwf : sess.session_id = make_session_id sess.day sess.point)
    (hmiss : ((tasks_all.take sess.split_index).filter (fun t =>
        !((get_done_task_ids log sess.day (normalize_point sess.point)).contains
          t.task_id))).map (fun t => t.task_name) ≠ []) :
    ((pick_user2_cb sessions d uid (some u2r) tasks_all log now).map
        (fun r => r.violation_to_control)) = some true
  ∧ ((pick_user2_cb sessions d uid (some u2r) tasks_all log now).map
        (fun r => (get_session r.sessions sess.day sess.point).map Session.state))
      = some (some "WAIT_ACCEPT")
  ∧ ((pick_user2_cb sessions d uid (some u2r) tasks_all log now).map
        (fun r => (get_session r.sessions sess.day sess.point).map Session.user2_id))
      = some (some (toString u2r.user_id)) := by
  have hup : get_session
      (upsert_session sessions
        (transfer_session_update sess (toString u2r.user_id) u2r.name now) now)
      sess.day sess.point
      = some { transfer_session_update sess (toString u2r.user_id) u2r.name now with
               updated_at := some now } := by
    apply get_session_upsert
    · rfl
    · exact hwf
  have hb : (((tasks_all.take sess.split_index).filter (fun t =>
      !((get_done_task_ids log sess.day (normalize_point sess.point)).contains
        t.task_id))).map (fun t => t.task_name)).isEmpty = false :=
    List.isEmpty_eq_false.mpr hmiss
  have hres : pick_user2_cb sessions d uid (some u2r) tasks_all log now
      = some { sessions := upsert_session sessions
                 (transfer_session_update sess (toString u2r.user_id) u2r.name now) now,
               violation_to_control := true,
               missing := ((tasks_all.take sess.split_index).filter (fun t =>
                 !((get_done_task_ids log sess.day (normalize_point sess.point)).contains
                   t.task_id))).map (fun t => t.task_name) } := by
    unfold pick_user2_cb
    rw [hctx]
    simp only [hact, hb]
    simp
  rw [hres]
  refine ⟨rfl, ?_, ?_⟩
  · show some ((get_session (upsert_session sessions
        (transfer_session_update sess (toString u2r.user_id) u2r.name now) now)
        sess.day sess.point).map Session.state) = some (some "WAIT_ACCEPT")
    rw [hup]
    rfl
  · show some ((get_session (upsert_session sessions
        (transfer_session_update sess (toString u2r.user_id) u2r.name now) now)
        sess.day sess.point).map Session.user2_id) = some (some (toString u2r.user_id))
    rw [hup]
    rfl

/-- C7 evaluation witness: a concrete OPEN1 session whose single first-half
task is still missing when worker1 hands over to an active candidate. -/
theorem transfer_with_missing_not_blocked_witness :
    ((pick_user2_cb [demoSession1] "2026-10-12" "7" (some demoUser) [demoTask] [] 30).map
        (fun r => r.violation_to_control)) = some true
  ∧ ((pick_user2_cb [demoSession1] "2026-10-12" "7" (some demoUser) [demoTask] [] 30).map
        (fun r => (get_session r.sessions demoSession1.day demoSession1.point).map
          Session.state)) = some (some "WAIT_ACCEPT")
  ∧ ((pick_user2_cb [demoSession1] "2026-10-12" "7" (some demoUser) [demoTask] [] 30).map
        (fun r => (get_session r.sessions demoSession1.day demoSession1.point).map
          Session.user2_id)) = some (some (toString demoUser.user_id)) :=
  transfer_with_missing_not_blocked [demoSession1] "2026-10-12" "7" demoUser [demoTask]
    [] 30 demoSession1 (by decide) (by decide) (by decide) (by decide)

/-- C9: two reminder-scheduler ticks for the same session and worker lying
within one idle window (t2 - t1 < idle) produce at most one reminder: if
the first tick sends, the throttle flag it wrote blocks the second tick,
whatever the schedule, ledger and completion state look like by then. -/
theorem reminder_at_most_once_per_idle_window
    (s : Session) (d uid role : String)
    (tasks1 tasks2 : List Task) (done1 done2 : List String)
    (log1 log2 : List DoneRecord) (f0 : Flags) (t1 t2 idle : Int)
    (hwin : t2 - t1 < idle)
    (hsent : (reminder_target_step s d uid role tasks1 done1 log1 f0 t1 idle).1.isSome) :
    (reminder_target_step s d uid role tasks2 done2 log2
        (reminder_target_step s d uid role tasks1 done1 log1 f0 t1 idle).2 t2 idle).1
      = none := by
  cases h1 : reminder_should_send s d uid role tasks1 done1 log1 f0 t1 idle with
  | false =>
    rw [reminder_target_step] at hsent
    simp [h1] at hsent
  | true =>
    have hflags : (reminder_target_step s d uid role tasks1 done1 log1 f0 t1 idle).2
        = flag_set f0 (reminder_flag_key d (normalize_point s.point) uid) t1 := by
      rw [reminder_target_step]
      simp [h1]
    rw [hflags]
    have hdec : decide (t2 - t1 < idle) = true := decide_eq_true hwin
    have hblock : reminder_should_send s d uid role tasks2 done2 log2
        (flag_set f0 (reminder_flag_key d (normalize_point s.point) uid) t1) t2 idle
        = false := by
      simp [reminder_should_send, flag_lookup_set, hdec]
    rw [reminder_target_step]
    simp [hblock]

/-- C9 evaluation witness: a second tick 50 minutes after a sent reminder
(window 60) is suppressed. -/
theorem reminder_at_most_once_per_idle_window_witness :
    (reminder_target_step demoSession1 "2026-10-12" "7" "HALF1" [demoTask] [] []
        ((reminder_target_step demoSession1 "2026-10-12" "7" "HALF1" [demoTask]
          [] [] [] 60 60).2) 110 60).1 = none :=
  reminder_at_most_once_per_idle_window demoSession1 "2026-10-12" "7" "HALF1"
    [demoTask] [demoTask] [] [] [] [] [] 60 110 60 (by decide) (by decide)

end WeCafe
